import Mathlib

/-!
Verification of the navigation guidance engine of the Blind-Guidance-Robot
repository, shallowly embedded from the Python sources
`src/backend/robot_controller.py`, `src/backend/main.py` and
`src/home_navigator.py`.  Floating-point numbers are modelled as exact
rationals.  The transcendental geometry helpers (`calculate_distance`,
`calculate_bearing`, `get_location_name`) compute with floating-point
trigonometry or call external services; their results are modelled as an
oracle parameter (`Geo`) so that the decision logic that consumes them is
embedded exactly.
-/

namespace BlindGuidance

/-- Python's `%` operator on floats for a positive modulus:
`x % y = x - y * floor (x / y)`, embedded over the rationals. -/
def fmod (x y : ℚ) : ℚ := x - y * (⌊x / y⌋ : ℤ)

/-- Python's built-in `round`: nearest integer, ties broken to the even
integer (banker's rounding). -/
def pyRound (x : ℚ) : ℤ :=
  let f := ⌊x⌋
  let r := x - (f : ℚ)
  if r < 1/2 then f
  else if 1/2 < r then f + 1
  else if f % 2 = 0 then f else f + 1

/-- A GPS coordinate pair, as the `{"lat": .., "lng": ..}` dictionaries of the
source. -/
structure GeoPoint where
  lat : ℚ
  lng : ℚ
deriving DecidableEq

/-- Oracle for the floating-point trigonometric geometry helpers and the
reverse-geocoding call.  `dist` stands for the Haversine
`calculate_distance`, `bearing` for `calculate_bearing` (range [0, 360) in
the source), `locName` for `get_location_name` (which catches its own
errors and always returns a string). -/
structure Geo where
  dist : GeoPoint → GeoPoint → ℚ
  bearing : GeoPoint → GeoPoint → ℚ
  locName : GeoPoint → String

namespace RobotController

/-- The discrete commands written to `devices/esp32B/navigation_direction`
by `update_direction_to_firebase` ('forward', 'left', 'right', 'arrived',
'stopped'). -/
inductive Direction where
  | forward
  | left
  | right
  | arrived
  | stopped
deriving DecidableEq

/-- Mutable fields of the `RobotController` class
(src/backend/robot_controller.py lines 19-32). -/
structure State where
  current_gps : GeoPoint
  destination : Option GeoPoint
  is_navigating : Bool
  current_heading : ℚ
  last_update_time : ℚ
deriving DecidableEq

/-- Arrival radius in meters (line 26). -/
def DESTINATION_THRESHOLD : ℚ := 5

/-- Acceptable heading error in degrees (line 27). -/
def HEADING_TOLERANCE : ℚ := 15

/-- Seconds between direction updates (line 28). -/
def UPDATE_INTERVAL : ℚ := 2

/-- The normalized angle difference of line 158:
`(target_bearing - current_heading + 180) % 360 - 180`. -/
def normalized_angle_diff (target_bearing current_heading : ℚ) : ℚ :=
  fmod (target_bearing - current_heading + 180) 360 - 180

/-- Effect of `get_gps_from_firebase` (lines 65-79) on the controller state:
a successful fetch caches the fix in `current_gps`, a failed one leaves the
state unchanged. -/
def get_gps_from_firebase (gpsFB : Option GeoPoint) (st : State) : State :=
  match gpsFB with
  | some g => { st with current_gps := g }
  | none => st

/-- `calculate_next_direction` (lines 122-171).  `gpsFB` and `headingFB`
are the values the two Firebase fetches return (`none` models a failed
fetch).  Returns the updated controller state and the computed direction;
`none` models the Python `return None` when the GPS fix or the destination
is missing.  A successful heading fetch caches the heading (line 88);
a failed one falls back to the last known heading (lines 153-155). -/
def calculate_next_direction (geo : Geo) (gpsFB : Option GeoPoint)
    (headingFB : Option ℚ) (st : State) : State × Option Direction :=
  match gpsFB, st.destination with
  | some gps, some dest =>
    let st1 : State := { st with current_gps := gps }
    let distance := geo.dist gps dest
    if distance < DESTINATION_THRESHOLD then (st1, some Direction.arrived)
    else
      let target_bearing := geo.bearing gps dest
      let st2 : State :=
        match headingFB with
        | some h => { st1 with current_heading := h }
        | none => st1
      let current_heading :=
        match headingFB with
        | some h => h
        | none => st.current_heading
      let angle_diff := normalized_angle_diff target_bearing current_heading
      if |angle_diff| < HEADING_TOLERANCE then (st2, some Direction.forward)
      else if angle_diff > 0 then (st2, some Direction.right)
      else (st2, some Direction.left)
  | _, _ => (get_gps_from_firebase gpsFB st, none)

/-- One pass of the navigation loop body of `start_navigation`
(lines 198-224), at wall-clock time `now`.  Returns the new state and the
list of commands published to Firebase during the pass.  If `is_navigating`
is false the `while` test fails: the loop exits and publishes nothing.  A
`None` direction is not published (lines 207-210); an 'arrived' direction
is published and stops the loop (lines 216-219); otherwise the direction is
published and the update time recorded (line 221). -/
def navigation_loop_step (geo : Geo) (gpsFB : Option GeoPoint)
    (headingFB : Option ℚ) (now : ℚ) (st : State) : State × List Direction :=
  if st.is_navigating = false then (st, [])
  else if now - st.last_update_time ≥ UPDATE_INTERVAL then
    let r := calculate_next_direction geo gpsFB headingFB st
    match r.2 with
    | none => (r.1, [])
    | some dir =>
      if dir = Direction.arrived then
        ({ r.1 with is_navigating := false }, [dir])
      else
        ({ r.1 with last_update_time := now }, [dir])
  else (st, [])

/-- `stop_navigation` (lines 238-243): clears the navigating flag and then
publishes the command 'stopped' to Firebase. -/
def stop_navigation (st : State) : State × List Direction :=
  ({ st with is_navigating := false }, [Direction.stopped])

end RobotController

namespace AudioSystem

/-- Mutable fields of the `AudioSystem` class that `speak` touches
(src/backend/main.py lines 81-92): the `enabled` flag and the audio
queue, created as `Queue()` without a capacity argument, i.e. unbounded. -/
structure State where
  enabled : Bool
  queue : List String
deriving DecidableEq

/-- `AudioSystem.speak` (lines 134-144): a no-op when disabled or when the
message is empty (Python truthiness of the string), otherwise it appends
the message to the queue; `Queue.put` on an unbounded queue never blocks
and never raises, and any exception would be caught and logged (lines
143-144), never re-raised. -/
def speak (st : State) (message : String) : State :=
  if st.enabled = false ∨ message = "" then st
  else { st with queue := st.queue ++ [message] }

end AudioSystem

namespace VoiceNavigator

/-- One waypoint dictionary as built by `set_destination`
(src/backend/main.py lines 218-223). -/
structure Waypoint where
  lat : ℚ
  lng : ℚ
  instruction : String
  index : ℕ
deriving DecidableEq

instance : Inhabited Waypoint := ⟨⟨0, 0, "", 0⟩⟩

/-- Position of a waypoint as a GeoPoint. -/
def Waypoint.pos (w : Waypoint) : GeoPoint := ⟨w.lat, w.lng⟩

/-- Mutable navigation fields of the `VoiceNavigator` class
(src/backend/main.py lines 168-184). -/
structure State where
  current_gps : Option GeoPoint
  destination : Option GeoPoint
  route_instructions : List String
  current_instruction_index : ℕ
  navigation_active : Bool
  last_announcement_time : ℚ
  last_spoken_instruction : String
  waypoints : List Waypoint
  current_waypoint_index : ℕ
deriving DecidableEq

/-- Meters at which the next instruction is given (line 183). -/
def GUIDANCE_DISTANCE_THRESHOLD : ℚ := 20

/-- Meters at which the user counts as off route (line 184). -/
def OFF_ROUTE_THRESHOLD : ℚ := 50

/-- The 16 direction names of `VoiceNavigator.bearing_to_direction`
(lines 289-294). -/
def directions16 : List String :=
  ["north", "north-northeast", "northeast", "east-northeast",
   "east", "east-southeast", "southeast", "south-southeast",
   "south", "south-southwest", "southwest", "west-southwest",
   "west", "west-northwest", "northwest", "north-northwest"]

/-- `VoiceNavigator.bearing_to_direction` (lines 287-297):
`directions[round(bearing / 22.5) % 16]`. -/
def bearing_to_direction (bearing : ℚ) : String :=
  directions16.getD ((pyRound (bearing / (22.5 : ℚ)) % 16).toNat) "north"

/-- The HTML-tag stripping of lines 405 and 474:
four successive `str.replace` calls. -/
def clean_instruction (s : String) : String :=
  (((s.replace "<b>" "").replace "</b>" "").replace "<div>" " ").replace
    "</div>" " "

/-- Abstract record of one `audio_system.speak` call site inside the
navigator, carrying the data the source interpolates into the message
text (number formatting and sentence templates are plumbing). -/
inductive Utterance where
  | navigationStarted (destName : String) (fromName : Option String)
      (steps : ℕ)
  | arrivalComplete
  | waypointInstruction (instruction : String) (direction : String)
  | approachingDestination
  | offRouteWarning (location : String) (direction : String) (distance : ℚ)
  | progressUpdate (location : String) (direction : String) (distance : ℚ)
      (instruction : String)
deriving DecidableEq

/-- `VoiceNavigator.set_destination` (src/backend/main.py lines 198-251).
Returns the new navigator state and the utterances spoken.  With a
non-empty instruction list, waypoint `i` (0-based, as `enumerate` yields)
is placed at fraction `(i+1)/n` of the straight line from the current GPS
fix to the destination (lines 210-223); with no current fix the waypoint
sits at the destination itself.  With an empty list a single waypoint at
the destination is created (line 226).  The initial spoken message (lines
237-251) names the destination, the current location when known, and the
step count. -/
def set_destination (geo : Geo) (lat lng : ℚ) (route_instructions : List String)
    (st : State) : State × List Utterance :=
  let n := route_instructions.length
  let waypoints : List Waypoint :=
    if route_instructions = [] then
      [{ lat := lat, lng := lng, instruction := "Arrive at destination",
         index := 0 }]
    else
      (List.range n).map (fun i : ℕ =>
        let progress : ℚ := ((i : ℚ) + 1) / (n : ℚ)
        let wlat : ℚ :=
          match st.current_gps with
          | some g => g.lat + (lat - g.lat) * progress
          | none => lat
        let wlng : ℚ :=
          match st.current_gps with
          | some g => g.lng + (lng - g.lng) * progress
          | none => lng
        { lat := wlat, lng := wlng,
          instruction := route_instructions.getD i "", index := i })
  let st1 : State :=
    { st with
      destination := some ⟨lat, lng⟩
      route_instructions := route_instructions
      current_instruction_index := 0
      current_waypoint_index := 0
      navigation_active := true
      last_spoken_instruction := ""
      waypoints := waypoints }
  (st1,
   [Utterance.navigationStarted (geo.locName ⟨lat, lng⟩)
      (st.current_gps.map geo.locName) route_instructions.length])

/-- `VoiceNavigator.provide_navigation_guidance` (src/backend/main.py
lines 359-482), one guidance tick at wall-clock time `now`.  Returns the
new state and the utterances spoken during the tick (never more than
one). -/
def provide_navigation_guidance (geo : Geo) (now : ℚ) (st : State) :
    State × List Utterance :=
  match st.current_gps with
  | none => (st, [])
  | some gps =>
    if st.navigation_active = false ∨ st.waypoints = [] then (st, [])
    else if st.waypoints.length ≤ st.current_waypoint_index then
      ({ st with
          navigation_active := false
          waypoints := []
          current_waypoint_index := 0
          destination := none
          route_instructions := [] },
       [Utterance.arrivalComplete])
    else
      let wp := st.waypoints.getD st.current_waypoint_index default
      let d := geo.dist gps wp.pos
      if d < GUIDANCE_DISTANCE_THRESHOLD then
        let idx1 := st.current_waypoint_index + 1
        if idx1 < st.waypoints.length then
          let nw := st.waypoints.getD idx1 default
          if nw.instruction ≠ "" ∧ nw.instruction ≠ st.last_spoken_instruction
          then
            let dir := bearing_to_direction (geo.bearing gps nw.pos)
            ({ st with
                current_waypoint_index := idx1
                last_spoken_instruction := nw.instruction
                last_announcement_time := now },
             [Utterance.waypointInstruction (clean_instruction nw.instruction)
                dir])
          else ({ st with current_waypoint_index := idx1 }, [])
        else
          ({ st with
              current_waypoint_index := idx1
              last_announcement_time := now },
           [Utterance.approachingDestination])
      else if d > OFF_ROUTE_THRESHOLD then
        if now - st.last_announcement_time > 10 then
          let dir := bearing_to_direction (geo.bearing gps wp.pos)
          ({ st with last_announcement_time := now },
           [Utterance.offRouteWarning (geo.locName gps) dir d])
        else (st, [])
      else
        let min_interval : ℚ := if d < 30 then 5 else if d < 100 then 8 else 15
        if now - st.last_announcement_time > min_interval then
          let dir := bearing_to_direction (geo.bearing gps wp.pos)
          ({ st with last_announcement_time := now },
           [Utterance.progressUpdate (geo.locName gps) dir d wp.instruction])
        else (st, [])

end VoiceNavigator

namespace Backend

/-- Body of the `/navigation/start` request (src/backend/main.py lines
853-869): optional coordinates, optional instruction list, optional
current location. -/
structure StartRequest where
  lat : Option ℚ
  lng : Option ℚ
  route_instructions : List String
  current_location : Option GeoPoint
deriving DecidableEq

/-- Outcome of the `/navigation/start` handler: the 400 rejection of lines
871-875 or the success payload of lines 892-901. -/
inductive StartResponse where
  | missingCoordinates
  | success (destLat destLng : ℚ) (instructionCount : ℕ)
deriving DecidableEq

/-- The fixed sample instruction pool of
`generate_sample_route_instructions` (lines 915-926). -/
def sample_instructions : List String :=
  ["Head southeast on your current street",
   "Turn right at the next intersection",
   "Continue straight for 200 meters",
   "Turn left at the traffic light",
   "Walk straight past the bus stop",
   "Turn right onto the main road",
   "Continue for 150 meters",
   "Turn left at the roundabout",
   "Walk straight toward the destination",
   "Your destination will be on the right"]

/-- `generate_sample_route_instructions` (lines 910-931); `k` models the
value drawn by `random.randint(3, 7)`. -/
def generate_sample_route_instructions (k : ℕ) : List String :=
  sample_instructions.take (min k sample_instructions.length)

/-- The `/navigation/start` handler `start_navigation`
(src/backend/main.py lines 853-908).  Only missing coordinates are
rejected (lines 871-875); nothing validates the coordinate ranges.  A
supplied current location is stored only when both of its coordinates are
truthy, i.e. non-zero (line 878).  An empty instruction list is replaced
by generated samples (lines 883-885) before `set_destination` runs. -/
def start_navigation (geo : Geo) (k : ℕ) (req : StartRequest)
    (st : VoiceNavigator.State) :
    (VoiceNavigator.State × List VoiceNavigator.Utterance) × StartResponse :=
  match req.lat, req.lng with
  | some lat, some lng =>
    let st1 : VoiceNavigator.State :=
      match req.current_location with
      | some c =>
        if c.lat ≠ 0 ∧ c.lng ≠ 0 then { st with current_gps := some c }
        else st
      | none => st
    let instrs :=
      if req.route_instructions = [] then generate_sample_route_instructions k
      else req.route_instructions
    let r := VoiceNavigator.set_destination geo lat lng instrs st1
    (r, StartResponse.success lat lng instrs.length)
  | _, _ => ((st, []), StartResponse.missingCoordinates)

end Backend

namespace HomeNavigator

/-- The 8 direction names of the home navigator's `bearing_to_direction`
(src/home_navigator.py lines 343-346). -/
def directions8 : List String :=
  ["North", "North-East", "East", "South-East",
   "South", "South-West", "West", "North-West"]

/-- The home navigator's `bearing_to_direction`
(src/home_navigator.py lines 341-348): `directions[round(bearing/45) % 8]`. -/
def bearing_to_direction (bearing : ℚ) : String :=
  directions8.getD ((pyRound (bearing / 45) % 8).toNat) "North"

end HomeNavigator

/-! ## Helper lemmas -/

/-- Bounds for the Python modulo with a positive modulus. -/
lemma fmod_bounds (x y : ℚ) (hy : 0 < y) : 0 ≤ fmod x y ∧ fmod x y < y := by
  unfold fmod
  have h1 : ((⌊x / y⌋ : ℤ) : ℚ) ≤ x / y := Int.floor_le _
  have h2 : x / y < (⌊x / y⌋ : ℤ) + 1 := Int.lt_floor_add_one _
  have hxy : x / y * y = x := div_mul_cancel₀ x (ne_of_gt hy)
  constructor
  · nlinarith
  · nlinarith

/-- The normalized angle difference of the robot controller lies in the
half-open interval [−180, 180). -/
lemma normalized_angle_diff_bounds (tb h : ℚ) :
    -180 ≤ RobotController.normalized_angle_diff tb h ∧
      RobotController.normalized_angle_diff tb h < 180 := by
  have hb := fmod_bounds (tb - h + 180) 360 (by norm_num)
  unfold RobotController.normalized_angle_diff
  constructor
  · linarith [hb.1]
  · linarith [hb.2]

/-- Unfolding of the direction component of `calculate_next_direction`
when the GPS fetch succeeds and a destination is set. -/
lemma calculate_next_direction_snd (geo : Geo) (gps dest : GeoPoint)
    (headingFB : Option ℚ) (st : RobotController.State)
    (hd : st.destination = some dest) :
    (RobotController.calculate_next_direction geo (some gps) headingFB st).2 =
      if geo.dist gps dest < RobotController.DESTINATION_THRESHOLD then
        some RobotController.Direction.arrived
      else if |RobotController.normalized_angle_diff (geo.bearing gps dest)
          (headingFB.getD st.current_heading)| <
          RobotController.HEADING_TOLERANCE then
        some RobotController.Direction.forward
      else if RobotController.normalized_angle_diff (geo.bearing gps dest)
          (headingFB.getD st.current_heading) > 0 then
        some RobotController.Direction.right
      else some RobotController.Direction.left := by
  cases headingFB with
  | none =>
    unfold RobotController.calculate_next_direction
    rw [hd]
    dsimp only [Option.getD]
    split_ifs <;> rfl
  | some h =>
    unfold RobotController.calculate_next_direction
    rw [hd]
    dsimp only [Option.getD]
    split_ifs <;> rfl

/-- Unfolding of `calculate_next_direction` when the GPS fetch fails. -/
lemma calculate_next_direction_no_gps (geo : Geo) (headingFB : Option ℚ)
    (st : RobotController.State) :
    RobotController.calculate_next_direction geo none headingFB st =
      (st, none) := by
  unfold RobotController.calculate_next_direction
  cases st.destination <;> rfl

/-! ## Claim C1 -/

/-- Claim C1: in every invocation of `calculate_next_direction` in which a
GPS fix and a destination are available, the result is 'arrived' if and
only if the distance from the current position to the destination is
strictly less than `DESTINATION_THRESHOLD` (5 m), regardless of the
heading value. -/
theorem C1_arrived_iff_within_threshold (geo : Geo) (gpsFB : Option GeoPoint)
    (headingFB : Option ℚ) (st : RobotController.State) (gps dest : GeoPoint)
    (hg : gpsFB = some gps) (hd : st.destination = some dest) :
    ((RobotController.calculate_next_direction geo gpsFB headingFB st).2 =
        some RobotController.Direction.arrived) ↔
      geo.dist gps dest < RobotController.DESTINATION_THRESHOLD := by
  subst hg
  rw [calculate_next_direction_snd geo gps dest headingFB st hd]
  split_ifs with h1 h2 h3 <;> simp_all

/-- Concrete geometry oracle whose distance is always zero. -/
def geoZero : Geo := ⟨fun _ _ => 0, fun _ _ => 0, fun _ => "here"⟩

/-- Concrete geometry oracle: distance 100 m, bearing 180°. -/
def geoFar : Geo := ⟨fun _ _ => 100, fun _ _ => 180, fun _ => "here"⟩

/-- Origin point. -/
def pOrigin : GeoPoint := ⟨0, 0⟩

/-- Concrete navigating robot state with destination (1, 1), heading 0. -/
def rcNav : RobotController.State :=
  ⟨⟨0, 0⟩, some ⟨1, 1⟩, true, 0, 0⟩

/-- Witness for C1: with the zero-distance oracle the computed direction is
'arrived'. -/
theorem C1_witness :
    (RobotController.calculate_next_direction geoZero (some pOrigin) none
        rcNav).2 = some RobotController.Direction.arrived :=
  (C1_arrived_iff_within_threshold geoZero (some pOrigin) none rcNav pOrigin
      ⟨1, 1⟩ rfl rfl).mpr (by decide)

/-! ## Claim C2 -/

/-- Counterexample to claim C2: in an invocation with distance 100 m (at
least the arrival radius), target bearing 180° and current heading 0°, the
normalized angle difference is exactly −180, which does not lie in the
claimed range (−180, 180]; the decision there is 'left'. -/
theorem C2_counterexample :
    RobotController.normalized_angle_diff 180 0 = -180 ∧
      ¬ (-180 : ℚ) < RobotController.normalized_angle_diff 180 0 ∧
      (RobotController.calculate_next_direction geoFar (some pOrigin) none
          rcNav).2 = some RobotController.Direction.left := by
  have hval : RobotController.normalized_angle_diff 180 0 = -180 := by
    norm_num [RobotController.normalized_angle_diff, fmod]
  refine ⟨hval, by rw [hval]; norm_num, ?_⟩
  rw [calculate_next_direction_snd geoFar pOrigin ⟨1, 1⟩ none rcNav rfl]
  norm_num [geoFar, rcNav, RobotController.DESTINATION_THRESHOLD,
    RobotController.HEADING_TOLERANCE, hval]

/-- Claim C2 (amended): when the distance is at least the arrival radius,
the normalized angle difference d lies in [−180, 180) (not (−180, 180] as
claimed); the decision is 'forward' iff |d| < `HEADING_TOLERANCE` (15°),
and when |d| equals the tolerance exactly the result is 'right' if d > 0
and 'left' otherwise, never 'forward'. -/
theorem C2_amended (geo : Geo) (headingFB : Option ℚ)
    (st : RobotController.State) (gps dest : GeoPoint) (d : ℚ)
    (hd : st.destination = some dest)
    (hfar : ¬ geo.dist gps dest < RobotController.DESTINATION_THRESHOLD)
    (hdiff : d = RobotController.normalized_angle_diff (geo.bearing gps dest)
      (headingFB.getD st.current_heading)) :
    (-180 ≤ d ∧ d < 180) ∧
      (((RobotController.calculate_next_direction geo (some gps) headingFB
            st).2 = some RobotController.Direction.forward) ↔
        |d| < RobotController.HEADING_TOLERANCE) ∧
      (|d| = RobotController.HEADING_TOLERANCE →
        (RobotController.calculate_next_direction geo (some gps) headingFB
              st).2 =
            some (if 0 < d then RobotController.Direction.right
              else RobotController.Direction.left) ∧
          (RobotController.calculate_next_direction geo (some gps) headingFB
              st).2 ≠ some RobotController.Direction.forward) := by
  have hb := normalized_angle_diff_bounds (geo.bearing gps dest)
    (headingFB.getD st.current_heading)
  rw [calculate_next_direction_snd geo gps dest headingFB st hd]
  rw [if_neg hfar]
  subst hdiff
  refine ⟨⟨hb.1, hb.2⟩, ?_, ?_⟩
  · split_ifs with h1 h2 <;> simp_all
  · intro heq
    have hne : ¬ |RobotController.normalized_angle_diff (geo.bearing gps dest)
        (headingFB.getD st.current_heading)| <
        RobotController.HEADING_TOLERANCE := by
      rw [heq]
      exact lt_irrefl _
    rw [if_neg hne]
    split_ifs with h2 <;> simp_all

/-- Concrete value of the normalized angle difference in the C2 witness
configuration. -/
def c2d : ℚ :=
  RobotController.normalized_angle_diff (geoFar.bearing pOrigin ⟨1, 1⟩)
    rcNav.current_heading

/-- Witness for the amended C2 at the concrete configuration of `geoFar`
and `rcNav` (distance 100 m, bearing 180°, heading 0°, heading fetch
failed). -/
theorem C2_amended_witness :
    ((-180 ≤ c2d ∧ c2d < 180) ∧
      (((RobotController.calculate_next_direction geoFar (some pOrigin) none
            rcNav).2 = some RobotController.Direction.forward) ↔
        |c2d| < RobotController.HEADING_TOLERANCE) ∧
      (|c2d| = RobotController.HEADING_TOLERANCE →
        (RobotController.calculate_next_direction geoFar (some pOrigin) none
              rcNav).2 =
            some (if 0 < c2d then RobotController.Direction.right
              else RobotController.Direction.left) ∧
          (RobotController.calculate_next_direction geoFar (some pOrigin) none
              rcNav).2 ≠ some RobotController.Direction.forward)) :=
  C2_amended geoFar none rcNav pOrigin ⟨1, 1⟩ c2d rfl (by decide) rfl

/-! ## Claim C4 -/

/-- Counterexample to claim C4: `stop_navigation` itself publishes the
command 'stopped' to the command sink (robot_controller.py line 243), so
stopping does cause a NavigationCommand to be sent. -/
theorem C4_counterexample :
    (RobotController.stop_navigation rcNav).2 =
        [RobotController.Direction.stopped] ∧
      (RobotController.stop_navigation rcNav).2 ≠ [] := by
  exact ⟨rfl, by decide⟩

/-- Claim C4 (amended): `stop_navigation` clears the navigating flag, so
the loop observes it at the top of its next period and exits without
publishing any further direction command; however `stop_navigation` itself
publishes one final 'stopped' command to the command sink. -/
theorem C4_amended (st : RobotController.State) (geo : Geo)
    (gpsFB : Option GeoPoint) (headingFB : Option ℚ) (now : ℚ) :
    (RobotController.stop_navigation st).1.is_navigating = false ∧
      RobotController.navigation_loop_step geo gpsFB headingFB now
          (RobotController.stop_navigation st).1 =
        ((RobotController.stop_navigation st).1, []) ∧
      (RobotController.stop_navigation st).2 =
        [RobotController.Direction.stopped] := by
  refine ⟨rfl, ?_, rfl⟩
  unfold RobotController.navigation_loop_step
  simp [RobotController.stop_navigation]

/-! ## Claim C5 -/

/-- Counterexample to claim C5: a tick in which the heading fetch fails
(`headingFB = none`) but the GPS fetch succeeds is not skipped: the
direction is computed from the last known heading and the command is
published. -/
theorem C5_counterexample :
    (RobotController.calculate_next_direction geoFar (some pOrigin) none
        rcNav).2 = some RobotController.Direction.left ∧
      (RobotController.navigation_loop_step geoFar (some pOrigin) none 10
          rcNav).2 = [RobotController.Direction.left] := by
  have hval : RobotController.normalized_angle_diff 180 0 = -180 := by
    norm_num [RobotController.normalized_angle_diff, fmod]
  have hr : (RobotController.calculate_next_direction geoFar (some pOrigin)
      none rcNav).2 = some RobotController.Direction.left := by
    rw [calculate_next_direction_snd geoFar pOrigin ⟨1, 1⟩ none rcNav rfl]
    norm_num [geoFar, rcNav, RobotController.DESTINATION_THRESHOLD,
      RobotController.HEADING_TOLERANCE, hval]
  refine ⟨hr, ?_⟩
  unfold RobotController.navigation_loop_step
  dsimp only
  rw [hr]
  norm_num [rcNav, RobotController.UPDATE_INTERVAL]
  split_ifs <;> rfl

/-- Claim C5 (amended): a tick with no GPS fix is skipped (no direction,
no publish), but a tick with only the heading missing is not: the
computation falls back to the last known heading and, whenever a
destination is set, still produces a command. -/
theorem C5_amended (geo : Geo) (headingFB : Option ℚ) (now : ℚ)
    (st : RobotController.State) (gps : GeoPoint) :
    (RobotController.calculate_next_direction geo none headingFB st =
        (st, none) ∧
      (RobotController.navigation_loop_step geo none headingFB now st).2 =
        []) ∧
      RobotController.calculate_next_direction geo (some gps) none st =
        RobotController.calculate_next_direction geo (some gps)
          (some st.current_heading) st ∧
      (st.destination.isSome →
        ((RobotController.calculate_next_direction geo (some gps) none
            st).2).isSome) := by
  refine ⟨⟨calculate_next_direction_no_gps geo headingFB st, ?_⟩, ?_, ?_⟩
  · unfold RobotController.navigation_loop_step
    rw [calculate_next_direction_no_gps geo headingFB st]
    split_ifs <;> rfl
  · cases hdest : st.destination with
    | none =>
      unfold RobotController.calculate_next_direction
      rw [hdest]
    | some dest =>
      unfold RobotController.calculate_next_direction
      rw [hdest]
  · intro h
    obtain ⟨dest, hd⟩ := Option.isSome_iff_exists.mp h
    rw [calculate_next_direction_snd geo gps dest none st hd]
    split_ifs <;> simp

/-- Witness for the amended C5 at the concrete configuration of `geoFar`
and `rcNav`. -/
theorem C5_amended_witness :
    ((RobotController.calculate_next_direction geoFar none none rcNav =
          (rcNav, none) ∧
        (RobotController.navigation_loop_step geoFar none none 10 rcNav).2 =
          []) ∧
      RobotController.calculate_next_direction geoFar (some pOrigin) none
          rcNav =
        RobotController.calculate_next_direction geoFar (some pOrigin)
          (some rcNav.current_heading) rcNav ∧
      (rcNav.destination.isSome →
        ((RobotController.calculate_next_direction geoFar (some pOrigin) none
            rcNav).2).isSome)) :=
  C5_amended geoFar none 10 rcNav pOrigin

/-! ## Claim C3 -/

/-- Fresh navigator state: no fix, no destination, inactive. -/
def navInit : VoiceNavigator.State := ⟨none, none, [], 0, false, 0, "", [], 0⟩

/-- A start request whose latitude 200 is outside [−90, 90]. -/
def reqOutOfRange : Backend.StartRequest := ⟨some 200, some 0, ["go"], none⟩

/-- A start request with the latitude missing. -/
def reqNoLat : Backend.StartRequest := ⟨none, some 0, [], none⟩

/-- Counterexample to claim C3: a request whose latitude 200 is out of
range is not rejected: the handler answers with success and mutates the
navigation state (destination set, navigation activated). -/
theorem C3_counterexample :
    (90 : ℚ) < 200 ∧
      (Backend.start_navigation geoZero 3 reqOutOfRange navInit).2 =
        Backend.StartResponse.success 200 0 1 ∧
      navInit.destination = none ∧
      (Backend.start_navigation geoZero 3 reqOutOfRange
          navInit).1.1.destination = some ⟨200, 0⟩ ∧
      (Backend.start_navigation geoZero 3 reqOutOfRange
          navInit).1.1.navigation_active = true := by
  exact ⟨by decide, rfl, rfl, rfl, rfl⟩

/-- Claim C3 (amended): only requests with a missing coordinate are
rejected synchronously, with no state mutation and no utterance;
out-of-range coordinates are not validated anywhere and lead to a normal
navigation start. -/
theorem C3_amended (geo : Geo) (k : ℕ) (req : Backend.StartRequest)
    (st : VoiceNavigator.State) (h : req.lat = none ∨ req.lng = none) :
    Backend.start_navigation geo k req st =
      ((st, []), Backend.StartResponse.missingCoordinates) := by
  unfold Backend.start_navigation
  rcases h with h | h
  · rw [h]
  · rw [h]
    cases req.lat <;> rfl

/-- Witness for the amended C3: a request with no latitude is rejected and
the state is untouched. -/
theorem C3_amended_witness :
    Backend.start_navigation geoZero 3 reqNoLat navInit =
      ((navInit, []), Backend.StartResponse.missingCoordinates) :=
  C3_amended geoZero 3 reqNoLat navInit (Or.inl rfl)

/-! ## Guidance tick characterization -/

/-- Unfolding of the guidance tick in the waypoint-reached branch
(main.py lines 394-421). -/
lemma guidance_near (geo : Geo) (now : ℚ) (st : VoiceNavigator.State)
    (gps : GeoPoint)
    (hact : st.navigation_active = true)
    (hgps : st.current_gps = some gps)
    (hlen : st.current_waypoint_index < st.waypoints.length)
    (hnear : geo.dist gps
        (st.waypoints.getD st.current_waypoint_index default).pos <
      VoiceNavigator.GUIDANCE_DISTANCE_THRESHOLD) :
    VoiceNavigator.provide_navigation_guidance geo now st =
      if st.current_waypoint_index + 1 < st.waypoints.length then
        (if (st.waypoints.getD (st.current_waypoint_index + 1)
              default).instruction ≠ "" ∧
            (st.waypoints.getD (st.current_waypoint_index + 1)
              default).instruction ≠ st.last_spoken_instruction then
          ({ st with
              current_waypoint_index := st.current_waypoint_index + 1
              last_spoken_instruction :=
                (st.waypoints.getD (st.current_waypoint_index + 1)
                  default).instruction
              last_announcement_time := now },
           [VoiceNavigator.Utterance.waypointInstruction
              (VoiceNavigator.clean_instruction
                (st.waypoints.getD (st.current_waypoint_index + 1)
                  default).instruction)
              (VoiceNavigator.bearing_to_direction (geo.bearing gps
                (st.waypoints.getD (st.current_waypoint_index + 1)
                  default).pos))])
        else
          ({ st with
              current_waypoint_index := st.current_waypoint_index + 1 }, []))
      else
        ({ st with
            current_waypoint_index := st.current_waypoint_index + 1
            last_announcement_time := now },
         [VoiceNavigator.Utterance.approachingDestination]) := by
  have hne : st.waypoints ≠ [] :=
    List.ne_nil_of_length_pos (Nat.lt_of_le_of_lt (Nat.zero_le _) hlen)
  unfold VoiceNavigator.provide_navigation_guidance
  rw [hgps]
  dsimp only
  rw [if_neg (by simp [hact, hne])]
  rw [if_neg (not_le.mpr hlen)]
  rw [if_pos hnear]

/-- Unfolding of the guidance tick when the current waypoint is not yet
reached (main.py lines 423-482). -/
lemma guidance_not_near (geo : Geo) (now : ℚ) (st : VoiceNavigator.State)
    (gps : GeoPoint)
    (hact : st.navigation_active = true)
    (hgps : st.current_gps = some gps)
    (hlen : st.current_waypoint_index < st.waypoints.length)
    (hfar : ¬ geo.dist gps
        (st.waypoints.getD st.current_waypoint_index default).pos <
      VoiceNavigator.GUIDANCE_DISTANCE_THRESHOLD) :
    VoiceNavigator.provide_navigation_guidance geo now st =
      if geo.dist gps
          (st.waypoints.getD st.current_waypoint_index default).pos >
          VoiceNavigator.OFF_ROUTE_THRESHOLD then
        (if now - st.last_announcement_time > 10 then
          ({ st with last_announcement_time := now },
           [VoiceNavigator.Utterance.offRouteWarning (geo.locName gps)
              (VoiceNavigator.bearing_to_direction (geo.bearing gps
                (st.waypoints.getD st.current_waypoint_index default).pos))
              (geo.dist gps
                (st.waypoints.getD st.current_waypoint_index default).pos)])
        else (st, []))
      else
        (if now - st.last_announcement_time >
            (if geo.dist gps
                (st.waypoints.getD st.current_waypoint_index default).pos <
                30 then (5 : ℚ)
              else if geo.dist gps
                  (st.waypoints.getD st.current_waypoint_index default).pos <
                  100 then 8
              else 15) then
          ({ st with last_announcement_time := now },
           [VoiceNavigator.Utterance.progressUpdate (geo.locName gps)
              (VoiceNavigator.bearing_to_direction (geo.bearing gps
                (st.waypoints.getD st.current_waypoint_index default).pos))
              (geo.dist gps
                (st.waypoints.getD st.current_waypoint_index default).pos)
              (st.waypoints.getD st.current_waypoint_index
                default).instruction])
        else (st, [])) := by
  have hne : st.waypoints ≠ [] :=
    List.ne_nil_of_length_pos (Nat.lt_of_le_of_lt (Nat.zero_le _) hlen)
  unfold VoiceNavigator.provide_navigation_guidance
  rw [hgps]
  dsimp only
  rw [if_neg (by simp [hact, hne])]
  rw [if_neg (not_le.mpr hlen)]
  rw [if_neg hfar]

/-! ## Claim C6 -/

/-- Active session whose second waypoint carries an empty instruction
while the last spoken instruction is "start". -/
def stC6 : VoiceNavigator.State :=
  ⟨some ⟨0, 0⟩, some ⟨1, 1⟩, ["start", ""], 0, true, 0, "start",
   [⟨0, 0, "start", 0⟩, ⟨1, 1, "", 1⟩], 0⟩

/-- Counterexample to claim C6: with the current waypoint reached (distance
0 m < 20 m), the index advances and the next waypoint's instruction (the
empty string) differs from the last spoken instruction, yet no utterance is
emitted, because line 403 of main.py also requires the instruction to be
non-empty. -/
theorem C6_counterexample :
    (stC6.waypoints.getD 1 default).instruction ≠
        stC6.last_spoken_instruction ∧
      (VoiceNavigator.provide_navigation_guidance geoZero 5
          stC6).1.current_waypoint_index = 1 ∧
      (VoiceNavigator.provide_navigation_guidance geoZero 5 stC6).2 = [] := by
  exact ⟨by decide, rfl, rfl⟩

/-- Claim C6 (amended): on a guidance tick that reaches the current
waypoint the index always advances by one; when a waypoint remains, exactly
one utterance carrying its HTML-stripped instruction and the compass label
of the bearing to it is emitted if the instruction is non-empty and differs
from the last spoken instruction, and nothing is emitted otherwise; when no
waypoint remains, one approaching-destination utterance is emitted. -/
theorem C6_amended (geo : Geo) (now : ℚ) (st : VoiceNavigator.State)
    (gps : GeoPoint) (nw : VoiceNavigator.Waypoint)
    (hact : st.navigation_active = true)
    (hgps : st.current_gps = some gps)
    (hlen : st.current_waypoint_index < st.waypoints.length)
    (hnear : geo.dist gps
        (st.waypoints.getD st.current_waypoint_index default).pos <
      VoiceNavigator.GUIDANCE_DISTANCE_THRESHOLD)
    (hnw : nw = st.waypoints.getD (st.current_waypoint_index + 1) default) :
    (VoiceNavigator.provide_navigation_guidance geo now
        st).1.current_waypoint_index = st.current_waypoint_index + 1 ∧
      (st.current_waypoint_index + 1 < st.waypoints.length →
        (nw.instruction ≠ "" ∧
            nw.instruction ≠ st.last_spoken_instruction →
          (VoiceNavigator.provide_navigation_guidance geo now st).2 =
            [VoiceNavigator.Utterance.waypointInstruction
              (VoiceNavigator.clean_instruction nw.instruction)
              (VoiceNavigator.bearing_to_direction
                (geo.bearing gps nw.pos))]) ∧
        (¬ (nw.instruction ≠ "" ∧
            nw.instruction ≠ st.last_spoken_instruction) →
          (VoiceNavigator.provide_navigation_guidance geo now st).2 = [])) ∧
      (st.current_waypoint_index + 1 = st.waypoints.length →
        (VoiceNavigator.provide_navigation_guidance geo now st).2 =
          [VoiceNavigator.Utterance.approachingDestination]) := by
  subst hnw
  rw [guidance_near geo now st gps hact hgps hlen hnear]
  refine ⟨?_, ?_, ?_⟩
  · split_ifs <;> rfl
  · intro hlt
    rw [if_pos hlt]
    constructor
    · intro hcond
      rw [if_pos hcond]
    · intro hcond
      rw [if_neg hcond]
  · intro heq
    rw [if_neg (by omega)]

/-- Active session whose second waypoint carries the fresh non-empty
instruction "b". -/
def stC6w : VoiceNavigator.State :=
  ⟨some ⟨0, 0⟩, some ⟨1, 1⟩, ["a", "b"], 0, true, 0, "",
   [⟨0, 0, "a", 0⟩, ⟨1, 1, "b", 1⟩], 0⟩

/-- Witness for the amended C6 at a concrete reached waypoint. -/
theorem C6_amended_witness :
    (VoiceNavigator.provide_navigation_guidance geoZero 7
        stC6w).1.current_waypoint_index = stC6w.current_waypoint_index + 1 ∧
      (stC6w.current_waypoint_index + 1 < stC6w.waypoints.length →
        ((VoiceNavigator.Waypoint.mk 1 1 "b" 1).instruction ≠ "" ∧
            (VoiceNavigator.Waypoint.mk 1 1 "b" 1).instruction ≠
              stC6w.last_spoken_instruction →
          (VoiceNavigator.provide_navigation_guidance geoZero 7 stC6w).2 =
            [VoiceNavigator.Utterance.waypointInstruction
              (VoiceNavigator.clean_instruction
                (VoiceNavigator.Waypoint.mk 1 1 "b" 1).instruction)
              (VoiceNavigator.bearing_to_direction (geoZero.bearing ⟨0, 0⟩
                (VoiceNavigator.Waypoint.mk 1 1 "b" 1).pos))]) ∧
        (¬ ((VoiceNavigator.Waypoint.mk 1 1 "b" 1).instruction ≠ "" ∧
            (VoiceNavigator.Waypoint.mk 1 1 "b" 1).instruction ≠
              stC6w.last_spoken_instruction) →
          (VoiceNavigator.provide_navigation_guidance geoZero 7 stC6w).2 =
            [])) ∧
      (stC6w.current_waypoint_index + 1 = stC6w.waypoints.length →
        (VoiceNavigator.provide_navigation_guidance geoZero 7 stC6w).2 =
          [VoiceNavigator.Utterance.approachingDestination]) :=
  C6_amended geoZero 7 stC6w ⟨0, 0⟩ ⟨1, 1, "b", 1⟩ rfl rfl (by decide)
    (by decide) (by decide)

/-! ## Claim C7 -/

/-- Claim C7: on a guidance tick in an active session where the waypoint is
not reached, a reorientation (off-route) utterance is emitted if and only
if the distance exceeds `OFF_ROUTE_THRESHOLD` (50 m) and more than 10
seconds have elapsed since the last announcement; emitting it sets
`last_announcement_time` to `now`, so a second tick within 10 seconds at
the same position emits nothing. -/
theorem C7_offroute (geo : Geo) (now : ℚ) (st : VoiceNavigator.State)
    (gps : GeoPoint) (d : ℚ)
    (hact : st.navigation_active = true)
    (hgps : st.current_gps = some gps)
    (hlen : st.current_waypoint_index < st.waypoints.length)
    (hd : d = geo.dist gps
      (st.waypoints.getD st.current_waypoint_index default).pos)
    (hfar : ¬ d < VoiceNavigator.GUIDANCE_DISTANCE_THRESHOLD) :
    ((∃ loc dir,
        (VoiceNavigator.provide_navigation_guidance geo now st).2 =
          [VoiceNavigator.Utterance.offRouteWarning loc dir d]) ↔
      (VoiceNavigator.OFF_ROUTE_THRESHOLD < d ∧
        10 < now - st.last_announcement_time)) ∧
      (VoiceNavigator.OFF_ROUTE_THRESHOLD < d →
        10 < now - st.last_announcement_time →
        (VoiceNavigator.provide_navigation_guidance geo now st).1 =
            { st with last_announcement_time := now } ∧
          ∀ now2, now2 - now ≤ 10 →
            (VoiceNavigator.provide_navigation_guidance geo now2
              { st with last_announcement_time := now }).2 = []) := by
  subst hd
  rw [guidance_not_near geo now st gps hact hgps hlen hfar]
  constructor
  · constructor
    · intro h
      obtain ⟨loc, dir, hout⟩ := h
      split_ifs at hout with h1 h2 h3 <;> simp_all
    · rintro ⟨h1, h2⟩
      rw [if_pos h1, if_pos h2]
      exact ⟨_, _, rfl⟩
  · intro h1 h2
    constructor
    · rw [if_pos h1, if_pos h2]
    · intro now2 hle
      rw [guidance_not_near geo now2 { st with last_announcement_time := now }
        gps hact hgps hlen hfar]
      dsimp only
      rw [if_pos h1]
      rw [if_neg (by linarith)]

/-- Concrete geometry oracle: distance 60 m, bearing 0. -/
def geo60 : Geo := ⟨fun _ _ => 60, fun _ _ => 0, fun _ => "loc"⟩

/-- Active session with a single waypoint, no prior announcement. -/
def stC7 : VoiceNavigator.State :=
  ⟨some ⟨0, 0⟩, some ⟨1, 1⟩, ["a"], 0, true, 0, "", [⟨1, 1, "a", 0⟩], 0⟩

/-- Witness for C7 at a concrete off-route configuration (60 m away, last
announcement 20 s ago). -/
theorem C7_offroute_witness :
    ((∃ loc dir,
        (VoiceNavigator.provide_navigation_guidance geo60 20 stC7).2 =
          [VoiceNavigator.Utterance.offRouteWarning loc dir
            (geo60.dist ⟨0, 0⟩ (stC7.waypoints.getD
              stC7.current_waypoint_index default).pos)]) ↔
      (VoiceNavigator.OFF_ROUTE_THRESHOLD <
          geo60.dist ⟨0, 0⟩ (stC7.waypoints.getD
            stC7.current_waypoint_index default).pos ∧
        10 < 20 - stC7.last_announcement_time)) ∧
      (VoiceNavigator.OFF_ROUTE_THRESHOLD <
          geo60.dist ⟨0, 0⟩ (stC7.waypoints.getD
            stC7.current_waypoint_index default).pos →
        10 < 20 - stC7.last_announcement_time →
        (VoiceNavigator.provide_navigation_guidance geo60 20 stC7).1 =
            { stC7 with last_announcement_time := 20 } ∧
          ∀ now2, now2 - 20 ≤ 10 →
            (VoiceNavigator.provide_navigation_guidance geo60 now2
              { stC7 with last_announcement_time := 20 }).2 = []) :=
  C7_offroute geo60 20 stC7 ⟨0, 0⟩ _ rfl rfl (by decide) rfl (by decide)

/-! ## Claim C8 -/

/-- Fresh enabled audio system with an empty queue. -/
def audioInit : AudioSystem.State := ⟨true, []⟩

/-- `speak` never changes the `enabled` flag. -/
lemma speak_enabled (st : AudioSystem.State) (m : String) :
    (AudioSystem.speak st m).enabled = st.enabled := by
  unfold AudioSystem.speak
  split_ifs <;> rfl

/-- Speaking n copies of "a" on an enabled system grows the queue by n. -/
lemma speak_replicate_length (n : ℕ) (st : AudioSystem.State)
    (h : st.enabled = true) :
    ((List.replicate n "a").foldl AudioSystem.speak st).queue.length =
      st.queue.length + n := by
  induction n generalizing st with
  | zero => simp
  | succ m ih =>
    rw [List.replicate_succ, List.foldl_cons]
    rw [ih (AudioSystem.speak st "a") (by rw [speak_enabled]; exact h)]
    have hq : (AudioSystem.speak st "a").queue = st.queue ++ ["a"] := by
      unfold AudioSystem.speak
      rw [if_neg (by simp [h])]
    rw [hq]
    simp
    omega

/-- Counterexample to claim C8: the audio queue is created without a
capacity bound (`Queue()` in main.py line 85), so no capacity C bounds the
queue length: speaking C+1 messages yields a queue of length C+1. -/
theorem C8_counterexample :
    ¬ ∃ C : ℕ, ∀ msgs : List String,
        (msgs.foldl AudioSystem.speak audioInit).queue.length ≤ C := by
  rintro ⟨C, hC⟩
  have h := hC (List.replicate (C + 1) "a")
  rw [speak_replicate_length (C + 1) audioInit rfl] at h
  simp [audioInit] at h

/-- Claim C8 (amended): the queue is unbounded; an enabled `speak` with a
non-empty message always appends it to the queue, whatever the current
queue length, and never fails. -/
theorem C8_amended (st : AudioSystem.State) (m : String)
    (h1 : st.enabled = true) (h2 : m ≠ "") :
    AudioSystem.speak st m = { st with queue := st.queue ++ [m] } := by
  unfold AudioSystem.speak
  rw [if_neg (by simp [h1, h2])]

/-- Witness for the amended C8 at a concrete message. -/
theorem C8_amended_witness :
    AudioSystem.speak audioInit "hello" =
      { audioInit with queue := audioInit.queue ++ ["hello"] } :=
  C8_amended audioInit "hello" rfl (by decide)

/-! ## Claim C9 -/

/-- Angular distance between two compass angles in [0, 360), going either
way around the circle. -/
def angDist (a c : ℚ) : ℚ := min |a - c| (360 - |a - c|)

/-- Python's round is within 1/2 of its argument. -/
lemma pyRound_close (x : ℚ) : |x - (pyRound x : ℚ)| ≤ 1 / 2 := by
  have hf : ((⌊x⌋ : ℚ)) ≤ x := Int.floor_le x
  have hf2 : x < (⌊x⌋ : ℚ) + 1 := Int.lt_floor_add_one x
  unfold pyRound
  dsimp only
  split_ifs with h1 h2 h3
  · rw [abs_le]
    constructor <;> linarith
  · push_cast
    rw [abs_le]
    constructor <;> linarith
  · rw [not_lt] at h1 h2
    rw [abs_le]
    constructor <;> linarith
  · rw [not_lt] at h1 h2
    push_cast
    rw [abs_le]
    constructor <;> linarith

/-- Python's round returns the floor or the ceiling. -/
lemma pyRound_mem (x : ℚ) : pyRound x = ⌊x⌋ ∨ pyRound x = ⌊x⌋ + 1 := by
  unfold pyRound
  dsimp only
  split_ifs <;> simp

/-- Nearest-sector property of the `round(bearing / w) % cnt` indexing
shared by the two compass labelers: the selected sector center is within
half a sector width of the bearing (measuring around the circle). -/
lemma nearest_sector (w : ℚ) (hw : 0 < w) (cnt : ℕ) (hcnt : 0 < cnt)
    (hwc : w * cnt = 360) (b : ℚ) (h0 : 0 ≤ b) (h1 : b < 360) :
    (pyRound (b / w) % (cnt : ℤ)).toNat < cnt ∧
      angDist b (w * ((pyRound (b / w) % (cnt : ℤ)).toNat : ℚ)) ≤ w / 2 := by
  have hx0 : 0 ≤ b / w := div_nonneg h0 hw.le
  have hxlt : b / w < (cnt : ℚ) := by
    rw [div_lt_iff₀ hw]
    calc b < 360 := h1
    _ = w * cnt := hwc.symm
    _ = (cnt : ℚ) * w := mul_comm _ _
  have hfl0 : (0 : ℤ) ≤ ⌊b / w⌋ := Int.floor_nonneg.mpr hx0
  have hr0 : 0 ≤ pyRound (b / w) := by
    rcases pyRound_mem (b / w) with h | h <;> omega
  have hflt : ⌊b / w⌋ < (cnt : ℤ) := by
    rw [Int.floor_lt]
    exact_mod_cast hxlt
  have hrle : pyRound (b / w) ≤ (cnt : ℤ) := by
    rcases pyRound_mem (b / w) with h | h <;> omega
  have hclose : |b / w - (pyRound (b / w) : ℚ)| ≤ 1 / 2 := pyRound_close _
  have hclose2 : |b - w * (pyRound (b / w) : ℚ)| ≤ w / 2 := by
    have h3 : |b / w - (pyRound (b / w) : ℚ)| * w ≤ (1 / 2) * w :=
      mul_le_mul_of_nonneg_right hclose hw.le
    have h5 : (b / w - (pyRound (b / w) : ℚ)) * w =
        b - w * (pyRound (b / w) : ℚ) := by
      rw [sub_mul, div_mul_cancel₀ _ (ne_of_gt hw)]
      ring
    calc |b - w * (pyRound (b / w) : ℚ)|
        = |(b / w - (pyRound (b / w) : ℚ)) * w| := by rw [h5]
      _ = |b / w - (pyRound (b / w) : ℚ)| * |w| := abs_mul _ _
      _ = |b / w - (pyRound (b / w) : ℚ)| * w := by rw [abs_of_pos hw]
      _ ≤ (1 / 2) * w := h3
      _ = w / 2 := by ring
  rcases lt_or_eq_of_le hrle with hlt | heq
  · have hmod : pyRound (b / w) % (cnt : ℤ) = pyRound (b / w) :=
      Int.emod_eq_of_lt hr0 hlt
    have htn : (((pyRound (b / w) % (cnt : ℤ)).toNat : ℚ)) =
        (pyRound (b / w) : ℚ) := by
      rw [hmod]
      exact_mod_cast congrArg Int.cast (Int.toNat_of_nonneg hr0)
    constructor
    · rw [hmod]
      omega
    · rw [htn]
      exact le_trans (min_le_left _ _) hclose2
  · have hmod : pyRound (b / w) % (cnt : ℤ) = 0 := by
      rw [heq]
      exact Int.emod_self
    have h360 : |b - 360| ≤ w / 2 := by
      have hh := hclose2
      rw [heq] at hh
      push_cast at hh
      rw [hwc] at hh
      exact hh
    constructor
    · rw [hmod]
      simpa using hcnt
    · rw [hmod]
      unfold angDist
      simp only [Int.toNat_zero, Nat.cast_zero, mul_zero, sub_zero]
      rw [abs_of_nonneg h0]
      have hb2 : 360 - b ≤ w / 2 := by
        rw [abs_sub_comm, abs_of_nonneg (by linarith)] at h360
        exact h360
      exact le_trans (min_le_right _ _) hb2

/-- Claim C9: for every bearing in [0, 360), both compass labelers pick a
sector by nearest-sector rounding: the pedestrian path returns one of the
16 names (sector width 22.5°) and the home navigator path one of the 8
names (sector width 45°), in both cases a sector whose center is within
half a sector width of the bearing. -/
theorem C9_nearest_sector (b : ℚ) (h0 : 0 ≤ b) (h1 : b < 360) :
    (∃ i : ℕ, i < 16 ∧
        VoiceNavigator.bearing_to_direction b =
          VoiceNavigator.directions16.getD i "north" ∧
        angDist b ((22.5 : ℚ) * i) ≤ (22.5 : ℚ) / 2) ∧
      ∃ j : ℕ, j < 8 ∧
        HomeNavigator.bearing_to_direction b =
          HomeNavigator.directions8.getD j "North" ∧
        angDist b (45 * j) ≤ 45 / 2 := by
  have h16 := nearest_sector (22.5 : ℚ) (by norm_num) 16 (by norm_num)
    (by norm_num) b h0 h1
  have h8 := nearest_sector 45 (by norm_num) 8 (by norm_num) (by norm_num)
    b h0 h1
  exact ⟨⟨_, h16.1, rfl, h16.2⟩, ⟨_, h8.1, rfl, h8.2⟩⟩

/-- Witness for C9 at bearing 90°. -/
theorem C9_witness :
    (∃ i : ℕ, i < 16 ∧
        VoiceNavigator.bearing_to_direction 90 =
          VoiceNavigator.directions16.getD i "north" ∧
        angDist 90 ((22.5 : ℚ) * i) ≤ (22.5 : ℚ) / 2) ∧
      ∃ j : ℕ, j < 8 ∧
        HomeNavigator.bearing_to_direction 90 =
          HomeNavigator.directions8.getD j "North" ∧
        angDist 90 (45 * j) ≤ 45 / 2 :=
  C9_nearest_sector 90 (by decide) (by decide)

/-! ## Claim C10 -/

/-- Navigator state holding a current GPS fix at the origin. -/
def navGps : VoiceNavigator.State :=
  ⟨some ⟨0, 0⟩, none, [], 0, false, 0, "", [], 0⟩

/-- Claim C10: `set_destination` with a non-empty list of n route
instructions and a known current position creates exactly n waypoints;
waypoint i (0-based) lies at fraction (i+1)/n along the straight line from
the current position to the destination in latitude and longitude, and the
final waypoint coincides with the destination. -/
theorem C10_waypoints (geo : Geo) (lat lng : ℚ) (instrs : List String)
    (st : VoiceNavigator.State) (g : GeoPoint)
    (wps : List VoiceNavigator.Waypoint)
    (hgps : st.current_gps = some g) (hne : instrs ≠ [])
    (hwps : wps =
      (VoiceNavigator.set_destination geo lat lng instrs st).1.waypoints) :
    wps.length = instrs.length ∧
      (∀ i, i < instrs.length →
        (wps.getD i default).lat =
            g.lat + (lat - g.lat) * (((i : ℚ) + 1) / (instrs.length : ℚ)) ∧
          (wps.getD i default).lng =
            g.lng + (lng - g.lng) * (((i : ℚ) + 1) / (instrs.length : ℚ))) ∧
      (wps.getD (instrs.length - 1) default).lat = lat ∧
      (wps.getD (instrs.length - 1) default).lng = lng := by
  have hlen0 : 0 < instrs.length := List.length_pos.mpr hne
  have hq0 : ((instrs.length : ℚ)) ≠ 0 := by
    exact_mod_cast Nat.pos_iff_ne_zero.mp hlen0
  subst hwps
  unfold VoiceNavigator.set_destination
  rw [hgps]
  dsimp only
  rw [if_neg hne]
  have hall : ∀ i, i < instrs.length →
      (((List.range instrs.length).map (fun i : ℕ =>
          ({ lat := g.lat + (lat - g.lat) * (((i : ℚ) + 1) /
                (instrs.length : ℚ)),
             lng := g.lng + (lng - g.lng) * (((i : ℚ) + 1) /
                (instrs.length : ℚ)),
             instruction := instrs.getD i "",
             index := i } : VoiceNavigator.Waypoint))).getD i default) =
        { lat := g.lat + (lat - g.lat) * (((i : ℚ) + 1) /
            (instrs.length : ℚ)),
          lng := g.lng + (lng - g.lng) * (((i : ℚ) + 1) /
            (instrs.length : ℚ)),
          instruction := instrs.getD i "",
          index := i } := by
    intro i hi
    rw [List.getD_eq_getElem _ _ (by simpa using hi)]
    simp
  refine ⟨by simp, ?_, ?_, ?_⟩
  · intro i hi
    rw [hall i hi]
    exact ⟨rfl, rfl⟩
  · rw [hall (instrs.length - 1) (by omega)]
    dsimp only
    rw [Nat.cast_sub (by omega : 1 ≤ instrs.length), Nat.cast_one]
    rw [show ((instrs.length : ℚ) - 1 + 1) = (instrs.length : ℚ) by ring]
    rw [div_self hq0, mul_one]
    ring
  · rw [hall (instrs.length - 1) (by omega)]
    dsimp only
    rw [Nat.cast_sub (by omega : 1 ≤ instrs.length), Nat.cast_one]
    rw [show ((instrs.length : ℚ) - 1 + 1) = (instrs.length : ℚ) by ring]
    rw [div_self hq0, mul_one]
    ring

/-- Witness for C10 at a concrete two-instruction route from the origin to
(2, 4). -/
theorem C10_witness :
    (VoiceNavigator.set_destination geoZero 2 4 ["a", "b"]
        navGps).1.waypoints.length = (["a", "b"] : List String).length ∧
      (∀ i, i < (["a", "b"] : List String).length →
        ((VoiceNavigator.set_destination geoZero 2 4 ["a", "b"]
              navGps).1.waypoints.getD i default).lat =
            (GeoPoint.mk 0 0).lat + ((2 : ℚ) - (GeoPoint.mk 0 0).lat) *
              (((i : ℚ) + 1) / ((["a", "b"] : List String).length : ℚ)) ∧
          ((VoiceNavigator.set_destination geoZero 2 4 ["a", "b"]
              navGps).1.waypoints.getD i default).lng =
            (GeoPoint.mk 0 0).lng + ((4 : ℚ) - (GeoPoint.mk 0 0).lng) *
              (((i : ℚ) + 1) / ((["a", "b"] : List String).length : ℚ))) ∧
      ((VoiceNavigator.set_destination geoZero 2 4 ["a", "b"]
          navGps).1.waypoints.getD ((["a", "b"] : List String).length - 1)
          default).lat = 2 ∧
      ((VoiceNavigator.set_destination geoZero 2 4 ["a", "b"]
          navGps).1.waypoints.getD ((["a", "b"] : List String).length - 1)
          default).lng = 4 :=
  C10_waypoints geoZero 2 4 ["a", "b"] navGps ⟨0, 0⟩ _ rfl (by decide) rfl

end BlindGuidance
